import Mathlib

/-!
Shallow embedding of the Insight-and-Dashboard-Agent pipeline
(SchemaParsingAgent, LLMBasedKPIIdentificationAgent, DataRetrievalAgent,
InsightGenerationAgent, VisualizationAgent, DashboardAssemblyAgent and the
orchestrating main loop), followed by theorems settling the behavioural
claims about it.

Modelling conventions:
* Python floats are modelled by rationals (`ℚ`); every comparison the code
  performs (slope sign, z-score threshold) is a sign/threshold test that is
  exact over `ℚ`.  Where a genuine square root would be needed (Pearson
  normalisation, z-score denominator) the embedding keeps the squared /
  pre-root data and performs the equivalent squared comparison.
* External boundaries (the generative model, the SQL engine, the Python
  `exec` of model-produced chart code, the k-means library routine) are
  oracle parameters: a model call that can raise is `String → Except String
  String`, a SQL execution is `String → Except String Table`, and so on.
* Python dictionaries returned to callers are association lists
  `List (String × _)`; absent keys are absent entries; a key stored with
  Python `None` is an entry holding `Option.none`.
* A Python generator is embedded as the list of the pairs it yields.
-/

namespace Pipeline

/-- JSON values, the shape `json.loads` produces. -/
inductive Json where
  | null : Json
  | bool (b : Bool) : Json
  | num (q : ℚ) : Json
  | str (s : String) : Json
  | arr (items : List Json) : Json
  | obj (fields : List (String × Json)) : Json

/-- A cell of a pandas data frame: missing (`NaN`/`NaT`), numeric, or text.
Datetime values are represented by their numeric ordinal (they are only
ever compared/sorted). -/
inductive Cell where
  | na : Cell
  | num (q : ℚ) : Cell
  | str (s : String) : Cell
deriving DecidableEq, Repr

/-- The numeric content of a cell, if any (`dropna` on a numeric column). -/
def Cell.toNum? : Cell → Option ℚ
  | Cell.num q => some q
  | _ => none

/-- Column dtype classes, as `pandas.api.types` distinguishes them. -/
inductive DType where
  | numeric : DType
  | datetime : DType
  | object : DType
  | other : DType
deriving DecidableEq, Repr

structure Column where
  name : String
  dtype : DType
  cells : List Cell
deriving DecidableEq, Repr

/-- A pandas DataFrame: named, typed columns (all of equal length in any
well-formed frame). -/
structure Table where
  cols : List Column
deriving DecidableEq, Repr

/-- `df.empty`: true when either axis has length zero. -/
def Table.isEmpty (t : Table) : Bool :=
  t.cols.isEmpty || t.cols.all (fun c => c.cells.isEmpty)

/-- `name in df.columns`. -/
def Table.hasCol (t : Table) (n : String) : Bool :=
  t.cols.any (fun c => c.name == n)

/-- `df[n]` (first column with that label). -/
def Table.cellsOf (t : Table) (n : String) : List Cell :=
  ((t.cols.find? (fun c => c.name == n)).map Column.cells).getD []

/-- `df.select_dtypes(include=[np.number])`. -/
def Table.numericCols (t : Table) : List Column :=
  t.cols.filter (fun c => c.dtype == DType.numeric)

/-- `df.select_dtypes(include=['object', 'category'])`. -/
def Table.objectCols (t : Table) : List Column :=
  t.cols.filter (fun c => c.dtype == DType.object)

/-! ## SchemaParsingAgent -/

/-- One schema entry as built by `SchemaParsingAgent.parse_schema`. -/
structure Field where
  table_name : String
  field_name : String
  dtype : String
  semantic_type : String
deriving DecidableEq, Repr

/-- A schema entry after `annotate_schema` added the `role` key. -/
structure AnnotatedField extends Field where
  role : String
deriving DecidableEq, Repr

/-- Python `str.lower()` (per code point, which for the ASCII names the
heuristics compare against coincides with Lean's `Char.toLower`). -/
def pyLower (s : String) : String :=
  ⟨s.data.map Char.toLower⟩

/-- Python `str.endswith(suffix)`. -/
def pyEndsWith (s suffix : String) : Bool :=
  suffix.data.isSuffixOf s.data

/-- `infer_field_type`: dtype class to semantic type, numeric check first,
then datetime, then string, else unknown. -/
def infer_field_type (dtype : DType) : String :=
  match dtype with
  | DType.numeric => "numerical"
  | DType.datetime => "datetime"
  | DType.object => "categorical"
  | DType.other => "unknown"

/-- `SchemaParsingAgent.parse_schema`: one field entry per column, in column
order, with the table name replicated into each entry. -/
def parse_schema (table_name : String) (df : Table) : List Field :=
  df.cols.map (fun c =>
    { table_name := table_name
      field_name := c.name
      dtype := toString (repr c.dtype)
      semantic_type := infer_field_type c.dtype })

/-- `SchemaParsingAgent.annotate_schema`: role assignment per field.
`name.lower() == 'id' or name.lower().endswith('_id')` wins over the
numeric/metric rule; remaining numerical fields are metrics; all other
remaining fields are dimensions. -/
def annotate_schema (schema : List Field) : List AnnotatedField :=
  schema.map (fun field =>
    if pyLower field.field_name = "id"
        ∨ pyEndsWith (pyLower field.field_name) "_id" = true then
      { toField := field, role := "identifier" }
    else if field.semantic_type = "numerical" then
      { toField := field, role := "metric" }
    else
      { toField := field, role := "dimension" })

/-- `SchemaParsingAgent.schema_api`: role-partitioned field-name listing. -/
structure SchemaAPI where
  all_fields : List String
  metrics : List String
  dimensions : List String
  identifiers : List String
deriving DecidableEq, Repr

def schema_api (schema : List AnnotatedField) : SchemaAPI :=
  { all_fields := schema.map (fun f => f.field_name)
    metrics := (schema.filter (fun f => f.role == "metric")).map (fun f => f.field_name)
    dimensions := (schema.filter (fun f => f.role == "dimension")).map (fun f => f.field_name)
    identifiers := (schema.filter (fun f => f.role == "identifier")).map (fun f => f.field_name) }

/-! ## LLMBasedKPIIdentificationAgent -/

/-- A KPI record dictionary `{KPI, Description, Fields}`; each key may be
absent (`dict.get` then returns its default). -/
structure KPIRec where
  name : Option String
  desc : Option String
  fields : List String
deriving DecidableEq, Repr

/-- `LLMBasedKPIIdentificationAgent.parse_kpi_json`: parse the raw model
text as JSON; a decode error is caught, the raw text is printed, and the
call returns `None`.  The JSON decoding boundary (`json.loads`) is the
`parseJson` oracle argument. -/
def parse_kpi_json (parseJson : String → Except String Json)
    (text : String) : Option Json :=
  match parseJson text with
  | Except.ok kpis => some kpis
  | Except.error _ => none

/-! ## DataRetrievalAgent

The generative-model call (`model.generate_content`) and the SQL execution
(`pd.read_sql_query` against the engine) are the oracles `cm` and `run`;
either may fail, which in Python is an exception and here is `Except.error`. -/

/-- The SQL-generation prompt of `generate_code_for_kpi` (schema listing,
KPI name/description/fields, fixed table name; text condensed — no claim
inspects the prompt wording). -/
def sql_prompt (api : SchemaAPI) (kpi : KPIRec) : String :=
  "You are a skilled data engineer. Metrics: " ++ String.intercalate ", " api.metrics
    ++ " Dimensions: " ++ String.intercalate ", " api.dimensions
    ++ " Identifiers: " ++ String.intercalate ", " api.identifiers
    ++ " Write a SQL query for the KPI named " ++ (kpi.name.getD "Unknown KPI")
    ++ " described " ++ (kpi.desc.getD "")
    ++ " using fields " ++ String.intercalate ", " kpi.fields
    ++ " against the table main_table. Return ONLY the SQL query."

/-- `DataRetrievalAgent.generate_code_for_kpi`: ask the model for SQL and
strip surrounding whitespace from the response. -/
def generate_code_for_kpi (cm : String → Except String String)
    (api : SchemaAPI) (kpi : KPIRec) : Except String String :=
  match cm (sql_prompt api kpi) with
  | Except.ok r => Except.ok r.trim
  | Except.error e => Except.error e

/-- `DataRetrievalAgent.clean_sql_code`: strip a leading case-insensitive
markdown fence tag and a trailing fence from the generated SQL. -/
def clean_sql_code (sql_text : String) : String :=
  let t := sql_text.trim
  let t := if pyLower t |>.startsWith "```sql" then
             (t.drop 6).dropWhile Char.isWhitespace
           else t
  let t := if t.endsWith "```" then t.dropRight 3 else t
  t.trim

/-- `DataRetrievalAgent.run_sql`: clean the query, then execute it via the
engine (the `run` oracle; a raised SQL error is `Except.error`). -/
def run_sql (run : String → Except String Table) (query : String) :
    Except String Table :=
  run (clean_sql_code query)

/-- `DataRetrievalAgent.get_data_for_kpi`: generate the SQL, then run it. -/
def get_data_for_kpi (cm : String → Except String String)
    (run : String → Except String Table) (api : SchemaAPI) (kpi : KPIRec) :
    Except String Table := do
  let sql ← generate_code_for_kpi cm api kpi
  run_sql run sql

/-- `DataRetrievalAgent.get_data_for_all_kpis`: the generator yields, for
each KPI in input order, `(kpi_name, df)` on success and `(kpi_name, None)`
when generation or execution raised (the exception is caught and printed,
and iteration continues with the next KPI). -/
def get_data_for_all_kpis (cm : String → Except String String)
    (run : String → Except String Table) (api : SchemaAPI)
    (kpis : List KPIRec) : List (String × Option Table) :=
  kpis.map (fun kpi =>
    (kpi.name.getD "Unnamed_KPI", (get_data_for_kpi cm run api kpi).toOption))

/-! ## InsightGenerationAgent -/

/-- One row of `numeric.describe().transpose()`.  The columns the pipeline
later reads (`mean`, `50%` as median, `min`, `max`) plus `count` are kept;
`std`/`25%`/`75%` would need an irrational square root / interpolation and
are read by no downstream code or claim, so they are omitted. -/
structure StatRow where
  count : ℕ
  mean : ℚ
  median : ℚ
  min : ℚ
  max : ℚ
deriving DecidableEq, Repr

/-- Stable insertion sort on `ℚ` (used for the median). -/
def insertAsc (x : ℚ) : List ℚ → List ℚ
  | [] => [x]
  | y :: ys => if x ≤ y then x :: y :: ys else y :: insertAsc x ys

def sortAsc : List ℚ → List ℚ
  | [] => []
  | x :: xs => insertAsc x (sortAsc xs)

/-- Median with linear interpolation, as pandas computes `50%`. -/
def medianOf (l : List ℚ) : ℚ :=
  let s := sortAsc l
  let n := s.length
  if n = 0 then 0
  else if n % 2 = 1 then s.getD (n / 2) 0
  else (s.getD (n / 2 - 1) 0 + s.getD (n / 2) 0) / 2

def statsOfValues (vals : List ℚ) : StatRow :=
  { count := vals.length
    mean := vals.sum / (vals.length : ℚ)
    median := medianOf vals
    min := (sortAsc vals).headD 0
    max := (sortAsc vals).getLastD 0 }

/-- `InsightGenerationAgent.descriptive_stats`: per-numeric-column summary
statistics over the non-missing values; empty when there is no numeric
column. -/
def descriptive_stats (data : Table) : List (String × StatRow) :=
  data.numericCols.map (fun c =>
    (c.name, statsOfValues (c.cells.filterMap Cell.toNum?)))

/-- Stable insertion by descending count (ties keep first-seen order),
the order `value_counts` reports. -/
def insertByCountDesc (p : Cell × ℕ) : List (Cell × ℕ) → List (Cell × ℕ)
  | [] => [p]
  | q :: qs => if q.2 < p.2 then p :: q :: qs else q :: insertByCountDesc p qs

def sortByCountDesc : List (Cell × ℕ) → List (Cell × ℕ)
  | [] => []
  | p :: ps => insertByCountDesc p (sortByCountDesc ps)

/-- `value_counts(dropna=False)` for one column. -/
def value_counts (cells : List Cell) : List (Cell × ℕ) :=
  sortByCountDesc ((cells.dedup).map (fun v => (v, cells.count v)))

/-- `InsightGenerationAgent.categorical_summary`: value counts per
object-dtype column. -/
def categorical_summary (data : Table) : List (String × List (Cell × ℕ)) :=
  data.objectCols.map (fun c => (c.name, value_counts c.cells))

/-- The result record of `detect_trends`. -/
structure TrendInfo where
  field : String
  trend : String
  slope : ℚ
deriving DecidableEq, Repr

/-- `data[[dc, field]].dropna()`: the (time, value) pairs of the rows where
both cells carry a number. -/
def dropnaPairs (data : Table) (dc field : String) : List (ℚ × ℚ) :=
  ((data.cellsOf dc).zip (data.cellsOf field)).filterMap (fun p =>
    match p.1.toNum?, p.2.toNum? with
    | some x, some y => some (x, y)
    | _, _ => none)

/-- Insertion sort by the time key (`sort_values(datetime_col)`). -/
def insertByKey (p : ℚ × ℚ) : List (ℚ × ℚ) → List (ℚ × ℚ)
  | [] => [p]
  | q :: qs => if p.1 < q.1 then p :: q :: qs else q :: insertByKey p qs

def sortByKey : List (ℚ × ℚ) → List (ℚ × ℚ)
  | [] => []
  | p :: ps => insertByKey p (sortByKey ps)

/-- `series.rolling(window=w).mean().dropna()`: the means of each width-`w`
window of consecutive values (pandas emits `NaN` for the first `w-1`
positions, which the `dropna` removes). -/
def rollingMean (w : ℕ) (ys : List ℚ) : List ℚ :=
  if w = 0 then []
  else (List.range (ys.length + 1 - w)).map (fun i =>
    ((ys.drop i).take w).sum / (w : ℚ))

/-- `np.polyfit(x, y, 1)[0]` with `x = 0, 1, …`: the least-squares slope
`(m·Σxy − Σx·Σy) / (m·Σx² − (Σx)²)`, exact over `ℚ` (the denominator is
nonzero whenever at least two sample points exist). -/
def lsSlope (ys : List ℚ) : ℚ :=
  let m : ℚ := (ys.length : ℚ)
  let xs : List ℚ := (List.range ys.length).map (fun i => (i : ℚ))
  let sx := xs.sum
  let sy := ys.sum
  let sxy := ((xs.zip ys).map (fun p => p.1 * p.2)).sum
  let sxx := (xs.map (fun x => x * x)).sum
  (m * sxy - sx * sy) / (m * sxx - sx * sx)

/-- The sign classification `detect_trends` applies to the slope. -/
def trendOfSlope (slope : ℚ) : String :=
  if 0 < slope then "increasing"
  else if slope < 0 then "decreasing"
  else "stable"

/-- `InsightGenerationAgent.detect_trends`: `None` when the agent has no
datetime column configured (Python truthiness also rejects `""`), when
either column is absent, or when fewer than `window + 1` rows survive the
`dropna`; otherwise the slope of the least-squares line through the rolling
means of the time-sorted values, classified by sign. -/
def detect_trends (datetime_col : Option String) (data : Table)
    (field : String) (window : ℕ) : Option TrendInfo :=
  match datetime_col with
  | none => none
  | some dc =>
    if dc = "" then none
    else if ¬ (data.hasCol dc = true) ∨ ¬ (data.hasCol field = true) then none
    else
      let ts := sortByKey (dropnaPairs data dc field)
      if ts.length < window + 1 then none
      else
        let rolling_mean := rollingMean window (ts.map Prod.snd)
        if rolling_mean.length < 2 then none
        else
          let slope := lsSlope rolling_mean
          some { field := field, trend := trendOfSlope slope, slope := slope }

/-- Data of one Pearson correlation entry: `r = cov / √(v₁·v₂)`.  The square
root is irrational, so the embedding keeps the numerator and the two
variances (computed over rows where both columns are non-missing); no
downstream code or claim reads the normalised value. -/
structure CorrEntry where
  cov : ℚ
  v1 : ℚ
  v2 : ℚ
deriving DecidableEq, Repr

def corrEntryOf (xs ys : List ℚ) : CorrEntry :=
  let n : ℚ := (xs.length : ℚ)
  let mx := xs.sum / n
  let my := ys.sum / n
  { cov := (((xs.zip ys).map (fun p => (p.1 - mx) * (p.2 - my))).sum) / n
    v1 := ((xs.map (fun x => (x - mx) * (x - mx))).sum) / n
    v2 := ((ys.map (fun y => (y - my) * (y - my))).sum) / n }

/-- `InsightGenerationAgent.correlation_matrix`: pairwise Pearson data over
the numeric columns (pairwise-complete rows); empty when there is no
numeric column. -/
def correlation_matrix (data : Table) : List (String × String × CorrEntry) :=
  data.numericCols.flatMap (fun c1 =>
    data.numericCols.map (fun c2 =>
      let pairs := (c1.cells.zip c2.cells).filterMap (fun p =>
        match p.1.toNum?, p.2.toNum? with
        | some x, some y => some (x, y)
        | _, _ => none)
      (c1.name, c2.name, corrEntryOf (pairs.map Prod.fst) (pairs.map Prod.snd))))

/-- The `(index, value)` pairs of the non-missing entries of a column:
`col.dropna()` with its original positional index labels. -/
def keptOfCells (cells : List Cell) : List (ℕ × ℚ) :=
  cells.enum.filterMap (fun p => (p.2.toNum?).map (fun q => (p.1, q)))

/-- The mean `scipy.stats.zscore` centres with. -/
def keptMean (kept : List (ℕ × ℚ)) : ℚ :=
  (kept.map Prod.snd).sum / (kept.length : ℚ)

/-- The population variance (`ddof = 0`, the `zscore` default) whose square
root is the z-score denominator. -/
def keptVar (kept : List (ℕ × ℚ)) : ℚ :=
  ((kept.map (fun p => (p.2 - keptMean kept) * (p.2 - keptMean kept))).sum)
    / (kept.length : ℚ)

/-- Anomaly indices for one numeric column.  `scipy.stats.zscore` computes
`z_i = (x_i − μ)/σ` with `σ = √v` (population variance `v`); for `σ > 0`
the test `|z_i| > t` is equivalent over `ℚ` to `t < 0 ∨ t²·v < (x_i − μ)²`,
and for `σ = 0` every `z_i` is `NaN = 0/0`, every comparison with `NaN` is
false, and no index qualifies — the `v ≠ 0` conjunct renders both cases. -/
def anomaliesForCol (z_thresh : ℚ) (cells : List Cell) : List ℕ :=
  let kept := keptOfCells cells
  if kept.isEmpty then []
  else
    kept.filterMap (fun p =>
      if keptVar kept ≠ 0
          ∧ (z_thresh < 0
             ∨ z_thresh * z_thresh * keptVar kept
                 < (p.2 - keptMean kept) * (p.2 - keptMean kept))
      then some p.1 else none)

/-- `InsightGenerationAgent.anomaly_detection`: per-numeric-column outlier
indices by the z-score method, each column handled independently after
dropping its missing values. -/
def anomaly_detection (data : Table) (z_thresh : ℚ) : List (String × List ℕ) :=
  data.numericCols.map (fun c => (c.name, anomaliesForCol z_thresh c.cells))

/-- Rows of `data.select_dtypes(include=[np.number]).dropna()`: one vector
per row in which every numeric column has a value, tagged with its index. -/
def completeNumericRows (data : Table) : List (ℕ × List ℚ) :=
  let ncols := data.numericCols
  let nRows := (ncols.map (fun c => c.cells.length)).foldr Nat.max 0
  (List.range nRows).filterMap (fun i =>
    let row := ncols.map (fun c => (c.cells.getD i Cell.na).toNum?)
    if row.all Option.isSome then some (i, row.reduceOption) else none)

/-- `InsightGenerationAgent.detect_clusters`: `None` when fewer complete
numeric rows than clusters exist (or none at all); otherwise group the row
indices by the labels the k-means library routine (the `kmeans` oracle)
assigns. -/
def detect_clusters (kmeans : List (List ℚ) → ℕ → List ℕ) (data : Table)
    (n_clusters : ℕ) : Option (List (ℕ × List ℕ)) :=
  let numeric := completeNumericRows data
  if numeric.length < n_clusters ∨ numeric.isEmpty then none
  else
    let labels := kmeans (numeric.map Prod.snd) n_clusters
    let pairs := labels.zip (numeric.map Prod.fst)
    some ((labels.dedup).map (fun lab =>
      (lab, (pairs.filter (fun p => p.1 == lab)).map Prod.snd)))

/-- A value stored in the insight-bundle dictionary returned by
`generate_insights_for_kpi`. -/
inductive InsightVal where
  | text (s : String) : InsightVal
  | stats (v : List (String × StatRow)) : InsightVal
  | cats (v : List (String × List (Cell × ℕ))) : InsightVal
  | trendsV (v : List TrendInfo) : InsightVal
  | corrV (v : List (String × String × CorrEntry)) : InsightVal
  | anomaliesV (v : List (String × List ℕ)) : InsightVal
  | clustersV (v : Option (List (ℕ × List ℕ))) : InsightVal
deriving DecidableEq, Repr

/-- Prompt of `generate_textual_insight` (stats/trends/correlation/
categorical renderings condensed — no claim inspects the wording). -/
def textual_insight_prompt (kpi_name kpi_desc : String)
    (desc_stats : List (String × StatRow)) (trends : List TrendInfo)
    (corr : List (String × String × CorrEntry))
    (cat_summary : List (String × List (Cell × ℕ))) : String :=
  "You are a data analyst assistant. KPI " ++ kpi_name ++ " described " ++ kpi_desc
    ++ " stats over " ++ String.intercalate ", " (desc_stats.map Prod.fst)
    ++ " trends " ++ String.intercalate ", " (trends.map (fun t => t.field ++ " " ++ t.trend))
    ++ " correlations over " ++ String.intercalate ", " (corr.map Prod.fst)
    ++ " categorical " ++ String.intercalate ", " (cat_summary.map Prod.fst)
    ++ " Generate a concise summary."

/-- `InsightGenerationAgent.generate_textual_insight`: one model round-trip
(the `llm` oracle; a raised error propagates to the caller's handler),
stripping whitespace from the response. -/
def generate_textual_insight (llm : String → Except String String)
    (kpi_name kpi_desc : String) (desc_stats : List (String × StatRow))
    (trends : List TrendInfo) (corr : List (String × String × CorrEntry))
    (cat_summary : List (String × List (Cell × ℕ))) : Except String String :=
  match llm (textual_insight_prompt kpi_name kpi_desc desc_stats trends corr cat_summary) with
  | Except.ok t => Except.ok t.trim
  | Except.error e => Except.error e

/-- The trend list `generate_insights_for_kpi` accumulates: only when the
agent's datetime column is set (Python truthiness rejects `""` too) and
present in the data, one `detect_trends` call per numeric column with the
default window 3, keeping the non-`None` results. -/
def trendsFor (datetime_col : Option String) (data : Table) : List TrendInfo :=
  match datetime_col with
  | none => []
  | some dc =>
    if dc ≠ "" ∧ data.hasCol dc = true then
      data.numericCols.filterMap (fun c => detect_trends (some dc) data c.name 3)
    else []

/-- `InsightGenerationAgent.generate_insights_for_kpi`: empty table (either
axis) short-circuits to a dictionary holding only the no-data summary; the
full path computes every numeric artifact, leaves `clusters` as `None` (the
`detect_clusters` call is commented out in the source), and asks the model
for the summary; an exception inside the guarded block — the model call —
is caught and converted to a failure-summary-only dictionary. -/
def generate_insights_for_kpi (llm : String → Except String String)
    (datetime_col : Option String) (kpi : KPIRec) (kpi_data : Table) :
    List (String × InsightVal) :=
  if kpi_data.isEmpty then
    [("summary", InsightVal.text
      ("No data available to generate insights for KPI '"
        ++ kpi.name.getD "Unknown" ++ "'."))]
  else
    let desc_stats := descriptive_stats kpi_data
    let cat_summary := categorical_summary kpi_data
    let trends := trendsFor datetime_col kpi_data
    let corr := correlation_matrix kpi_data
    let anomalies := anomaly_detection kpi_data 3
    let clusters : Option (List (ℕ × List ℕ)) := none
    match generate_textual_insight llm (kpi.name.getD "Unknown KPI")
        (kpi.desc.getD "") desc_stats trends corr cat_summary with
    | Except.ok summary =>
      [("descriptive_stats", InsightVal.stats desc_stats),
       ("categorical_summary", InsightVal.cats cat_summary),
       ("trends", InsightVal.trendsV trends),
       ("correlation_matrix", InsightVal.corrV corr),
       ("anomalies", InsightVal.anomaliesV anomalies),
       ("clusters", InsightVal.clustersV clusters),
       ("summary", InsightVal.text summary)]
    | Except.error e =>
      [("summary", InsightVal.text
        ("Failed to generate insights for KPI '"
          ++ kpi.name.getD "Unknown" ++ "': " ++ e))]

/-- `insights.get("summary", "")` on the bundle dictionary. -/
def summaryText (bundle : List (String × InsightVal)) : String :=
  match bundle.lookup "summary" with
  | some (InsightVal.text s) => s
  | _ => ""

/-! ## VisualizationAgent -/

/-- An opaque handle for a Plotly figure object produced by executing
model-generated code. -/
structure Fig where
  fid : ℕ
deriving DecidableEq, Repr

/-- The chart-suggestion prompt (wording condensed — no claim inspects
it). -/
def chart_prompt (kpi_name kpi_desc insight_summary : String) : String :=
  "You are a data visualization expert. KPI " ++ kpi_name
    ++ " described " ++ kpi_desc ++ " with insights " ++ insight_summary
    ++ " Suggest chart types as JSON. Respond with ONLY the JSON."

/-- `VisualizationAgent.suggest_chart_types`: one model call, response
stripped and parsed as JSON; a lone object is wrapped into a one-element
list, a list is returned as-is, any other JSON shape and any decode error
yield `None` (printed, not raised). -/
def suggest_chart_types (parseJson : String → Except String Json)
    (cm : String → String) (kpi_name kpi_desc insight_summary : String) :
    Option (List Json) :=
  let text := (cm (chart_prompt kpi_name kpi_desc insight_summary)).trim
  match parseJson text with
  | Except.ok (Json.obj fields) => some [Json.obj fields]
  | Except.ok (Json.arr items) => some items
  | Except.ok _ => none
  | Except.error _ => none

/-- `VisualizationAgent._clean_generated_code`: strip markdown fences from
the model's code response (regex behaviour approximated on the leading and
trailing fence; no claim inspects the result). -/
def clean_generated_code (code : String) : String :=
  let t := if code.startsWith "```python" then code.drop 9
           else if code.startsWith "```" then code.drop 3
           else code
  let t := if t.startsWith "\n" then t.drop 1 else t
  let t := if t.endsWith "\n```" then t.dropRight 4
           else if t.endsWith "```" then t.dropRight 3
           else t
  t

/-- A rendering of `data.head(num_rows).to_dict(orient='records')` for the
code-generation prompt. -/
def cellStr : Cell → String
  | Cell.na => "NaN"
  | Cell.num q => toString q
  | Cell.str s => s

def renderSample (data : Table) (num_rows : ℕ) : String :=
  String.intercalate "; " (data.cols.map (fun c =>
    c.name ++ ": " ++ String.intercalate ", " ((c.cells.take num_rows).map cellStr)))

/-- The code-generation prompt of `generate_plotly_code` (condensed). -/
def plotly_prompt (kpi_name kpi_desc insight_summary : String)
    (data : Table) (num_rows : ℕ) : String :=
  "You are a python data visualization expert. KPI " ++ kpi_name
    ++ " described " ++ kpi_desc ++ " with insights " ++ insight_summary
    ++ " over data sample " ++ renderSample data num_rows
    ++ " Write Plotly code producing a figure named fig from data_df."

/-- `VisualizationAgent.generate_plotly_code`: ask the model for chart code
(`cm` oracle), strip whitespace and fences, then execute it with the data
frame bound to `data_df` and extract a validated `fig` — the `exec` of
arbitrary Python plus the figure validation and its exception handler are
the `runCode` oracle, which returns `None` for a missing/invalid figure or
a raised execution error. -/
def generate_plotly_code (cm : String → String)
    (runCode : String → Table → Option Fig)
    (kpi_name kpi_desc insight_summary : String) (data : Table)
    (num_rows : ℕ) : Option Fig :=
  let code_str := (cm (plotly_prompt kpi_name kpi_desc insight_summary data num_rows)).trim
  let code_str := clean_generated_code code_str
  runCode code_str data

/-- `VisualizationAgent.create_visualization`: obtain chart suggestions; a
`None` or empty suggestion list skips visualization; otherwise the first
suggestion is bound (`first_suggestion` in the source) and
`generate_plotly_code` is called with the KPI context and data (default
sample size 10). -/
def create_visualization (parseJson : String → Except String Json)
    (cmSuggest : String → String) (cmCode : String → String)
    (runCode : String → Table → Option Fig)
    (kpi_name kpi_desc insight_summary : String) (kpi_data : Table) :
    Option Fig :=
  match suggest_chart_types parseJson cmSuggest kpi_name kpi_desc insight_summary with
  | none => none
  | some chart_suggestions =>
    if chart_suggestions.isEmpty then none
    else
      let first_suggestion := chart_suggestions.headD Json.null
      generate_plotly_code cmCode runCode kpi_name kpi_desc insight_summary kpi_data 10

/-! ## DashboardAssemblyAgent and the orchestrating main loop -/

/-- One dashboard card: heading, insight text panel, and either the figure
or (when `chart = none`) the textual "No visualization available"
placeholder. -/
structure Card where
  kpi_name : String
  insight_text : String
  chart : Option Fig
deriving DecidableEq, Repr

/-- `DashboardAssemblyAgent.build_dashboard_layout`: one card per entry of
the accumulated mapping, in insertion order. -/
def build_dashboard_layout (entries : List (String × String × Option Fig)) :
    List Card :=
  entries.map (fun e => { kpi_name := e.1, insight_text := e.2.1, chart := e.2.2 })

/-- The body of the per-KPI loop in `main`: a `None` or empty retrieval
result is skipped (`continue`) before any insight or visualization work;
a KPI whose metadata cannot be found by name is likewise skipped; otherwise
insights are generated, a visualization is attempted, and the
`(summary, figure)` entry is recorded for the dashboard. -/
def main_loop_step (llm : String → Except String String)
    (parseJson : String → Except String Json)
    (cmSuggest cmCode : String → String)
    (runCode : String → Table → Option Fig)
    (datetime_col : Option String) (kpis : List KPIRec)
    (kpi_name : String) (df_subset : Option Table) :
    Option (String × Option Fig) :=
  match df_subset with
  | none => none
  | some df =>
    if df.isEmpty then none
    else
      match kpis.find? (fun item => item.name == some kpi_name) with
      | none => none
      | some kpi_meta =>
        let insights := generate_insights_for_kpi llm datetime_col kpi_meta df
        let fig := create_visualization parseJson cmSuggest cmCode runCode
          (kpi_meta.name.getD kpi_name) (kpi_meta.desc.getD "")
          (summaryText insights) df
        some (summaryText insights, fig)

/-- The accumulated `kpi_insights_figures` mapping after the main loop ran
over every pair the retrieval generator yields. -/
def kpi_insights_figures (llm : String → Except String String)
    (parseJson : String → Except String Json)
    (cmSuggest cmCode : String → String)
    (runCode : String → Table → Option Fig)
    (cmSql : String → Except String String)
    (runSqlE : String → Except String Table)
    (api : SchemaAPI) (datetime_col : Option String) (kpis : List KPIRec) :
    List (String × String × Option Fig) :=
  (get_data_for_all_kpis cmSql runSqlE api kpis).filterMap (fun p =>
    (main_loop_step llm parseJson cmSuggest cmCode runCode datetime_col kpis p.1 p.2).map
      (fun r => (p.1, r.1, r.2)))

/-! ## Concrete instances used to exercise the definitions -/

/-- A model oracle whose call raises. -/
def cmFail : String → Except String String := fun _ => Except.error "model unavailable"

/-- A model oracle answering every SQL-generation prompt with a fixed query. -/
def cmOkSql : String → Except String String :=
  fun _ => Except.ok "SELECT total_spent FROM main_table"

/-- A SQL engine whose execution raises. -/
def runFailSql : String → Except String Table := fun _ => Except.error "no such table"

/-- A result table with one numeric column and zero rows. -/
def emptyResultTable : Table := ⟨[⟨"total_spent", DType.numeric, []⟩]⟩

/-- A SQL engine returning the zero-row result for every query. -/
def runEmptySql : String → Except String Table := fun _ => Except.ok emptyResultTable

def api0 : SchemaAPI :=
  ⟨["user_id", "total_spent"], ["total_spent"], [], ["user_id"]⟩

def kpiA : KPIRec := ⟨some "Total Spent", some "Sum of spend", ["total_spent"]⟩

def kpiB : KPIRec := ⟨some "Customer Count", some "Number of customers", ["user_id"]⟩

/-- A model oracle returning a fixed summary text. -/
def llmOkSummary : String → Except String String := fun _ => Except.ok "summary text"

/-- A JSON-decoding oracle succeeding with a single (unwrapped) object. -/
def parseAlwaysObj : String → Except String Json :=
  fun _ => Except.ok (Json.obj [("chart_type", Json.str "bar")])

/-- A JSON-decoding oracle succeeding with a two-element array. -/
def parseAlwaysArr : String → Except String Json :=
  fun _ => Except.ok (Json.arr [Json.obj [("chart_type", Json.str "bar")],
                                Json.obj [("chart_type", Json.str "line")]])

/-- A JSON-decoding oracle that always fails to decode. -/
def parseAlwaysErr : String → Except String Json :=
  fun _ => Except.error "Expecting value: line 1 column 1 (char 0)"

/-- A plain model oracle returning fixed text. -/
def cmText : String → String := fun _ => "resp"

/-- A code-execution oracle producing a figure. -/
def runCodeOk : String → Table → Option Fig := fun _ _ => some ⟨1⟩

/-- An arbitrary stand-in for the k-means library routine. -/
def kmeans0 : List (List ℚ) → ℕ → List ℕ :=
  fun rows n_clusters => (List.range rows.length).map (fun i => i % n_clusters)

/-- A nonempty one-numeric-column table. -/
def tNum : Table :=
  ⟨[⟨"x", DType.numeric, [Cell.num 1, Cell.num 2, Cell.num 3, Cell.num 10]⟩]⟩

/-- A table with a datetime column and a numeric column, five complete rows. -/
def tTrend : Table :=
  ⟨[⟨"date", DType.datetime,
      [Cell.num 1, Cell.num 2, Cell.num 3, Cell.num 4, Cell.num 5]⟩,
    ⟨"sales", DType.numeric,
      [Cell.num 1, Cell.num 2, Cell.num 3, Cell.num 4, Cell.num 5]⟩]⟩

/-- A numeric column with a single distinct non-missing value. -/
def colConst : Column := ⟨"x", DType.numeric, [Cell.num 5, Cell.na, Cell.num 5]⟩

def fieldAmount : Field := ⟨"main", "amount", "float64", "numerical"⟩

def gAmount : AnnotatedField := ⟨fieldAmount, "metric"⟩

def fieldUserID : Field := ⟨"main", "user_ID", "int64", "numerical"⟩

def gUserID : AnnotatedField := ⟨fieldUserID, "identifier"⟩

/-! ## Helper lemmas -/

theorem pyLower_append (a b : String) :
    pyLower (a ++ b) = pyLower a ++ pyLower b := by
  apply congrArg String.mk
  show ((a ++ b).data).map Char.toLower
      = (pyLower a).data ++ (pyLower b).data
  rw [String.data_append, List.map_append]
  rfl

theorem pyEndsWith_append (x s : String) : pyEndsWith (x ++ s) s = true := by
  show s.data.isSuffixOf (x ++ s).data = true
  rw [String.data_append]
  exact List.isSuffixOf_iff_suffix.mpr (List.suffix_append x.data s.data)

/-- Any of the four mixed-case spellings of the identifier naming pattern
passes the lower-cased check of `annotate_schema`. -/
theorem idName_of_variants (s : String)
    (h : s = "ID" ∨ s = "Id" ∨ (∃ b, s = b ++ "_ID") ∨ (∃ b, s = b ++ "_Id")) :
    pyLower s = "id" ∨ pyEndsWith (pyLower s) "_id" = true := by
  rcases h with h | h | ⟨b, h⟩ | ⟨b, h⟩
  · exact Or.inl (by rw [h]; decide)
  · exact Or.inl (by rw [h]; decide)
  · refine Or.inr ?_
    rw [h, pyLower_append]
    have h2 : pyLower "_ID" = "_id" := by decide
    rw [h2]
    exact pyEndsWith_append (pyLower b) "_id"
  · refine Or.inr ?_
    rw [h, pyLower_append]
    have h2 : pyLower "_Id" = "_id" := by decide
    rw [h2]
    exact pyEndsWith_append (pyLower b) "_id"

/-! ## Claim theorems -/

/-- C2: role assignment in `annotate_schema` is deterministic (it is a pure
function of the field list) and name precedence holds: a field whose
(lower-cased) name is `id` or ends with `_id` is assigned role
`identifier` regardless of its semantic type; among the remaining fields,
those whose semantic type is `numerical` are assigned `metric` and all
others `dimension`. -/
theorem annotate_schema_role_rules (schema : List Field) (g : AnnotatedField)
    (hg : g ∈ annotate_schema schema) :
    ((pyLower g.field_name = "id" ∨ pyEndsWith (pyLower g.field_name) "_id" = true) →
       g.role = "identifier") ∧
    (¬ (pyLower g.field_name = "id" ∨ pyEndsWith (pyLower g.field_name) "_id" = true) →
       ((g.semantic_type = "numerical" → g.role = "metric") ∧
        (g.semantic_type ≠ "numerical" → g.role = "dimension"))) := by
  obtain ⟨f, hf, rfl⟩ := List.mem_map.1 hg
  by_cases hid : pyLower f.field_name = "id" ∨ pyEndsWith (pyLower f.field_name) "_id" = true
  · simp [hid]
  · by_cases hnum : f.semantic_type = "numerical"
    · simp [hid, hnum]
    · simp [hid, hnum]

/-- C2 witness: a numerical field named `amount` is annotated `metric`. -/
theorem annotate_schema_role_rules_witness :
    gAmount ∈ annotate_schema [fieldAmount] ∧ gAmount.role = "metric" := by
  have hmem : gAmount ∈ annotate_schema [fieldAmount] := by decide
  refine ⟨hmem, ?_⟩
  exact ((annotate_schema_role_rules [fieldAmount] gAmount hmem).2 (by decide)).1 (by decide)

/-- C10: the identifier name check is case-insensitive — the field name is
lower-cased before the comparison, so `ID`, `Id` and names ending in
`_ID`/`_Id` are also assigned role `identifier`, taking precedence over the
metric/dimension rules. -/
theorem annotate_schema_case_insensitive_id (schema : List Field)
    (g : AnnotatedField) (hg : g ∈ annotate_schema schema)
    (hname : g.field_name = "ID" ∨ g.field_name = "Id"
      ∨ (∃ b, g.field_name = b ++ "_ID") ∨ (∃ b, g.field_name = b ++ "_Id")) :
    g.role = "identifier" := by
  obtain ⟨f, hf, rfl⟩ := List.mem_map.1 hg
  by_cases hid : pyLower f.field_name = "id" ∨ pyEndsWith (pyLower f.field_name) "_id" = true
  · simp [hid]
  · by_cases hnum : f.semantic_type = "numerical"
    · simp [hid, hnum] at hname ⊢
      exact absurd (idName_of_variants f.field_name hname) hid
    · simp [hid, hnum] at hname ⊢
      exact absurd (idName_of_variants f.field_name hname) hid

/-- C10 witness: the numeric field `user_ID` is annotated `identifier`. -/
theorem annotate_schema_case_insensitive_id_witness :
    gUserID ∈ annotate_schema [fieldUserID] ∧ gUserID.role = "identifier" := by
  have hmem : gUserID ∈ annotate_schema [fieldUserID] := by decide
  refine ⟨hmem, ?_⟩
  exact annotate_schema_case_insensitive_id [fieldUserID] gUserID hmem
    (Or.inr (Or.inr (Or.inl ⟨"user", by decide⟩)))

/-- C1 counterexample: when SQL generation raises for a KPI, the yielded
pair carries `None`, not an empty result table — no pair `(name, some df)`
is yielded for that KPI, for any table `df` (in particular not for a
zero-row one). -/
theorem get_data_failure_yields_none_not_empty_table :
    get_data_for_all_kpis cmFail runFailSql api0 [kpiA]
        = [("Total Spent", (none : Option Table))] ∧
    ∀ df : Table,
      ("Total Spent", some df) ∉ get_data_for_all_kpis cmFail runFailSql api0 [kpiA] := by
  have h1 : get_data_for_all_kpis cmFail runFailSql api0 [kpiA]
      = [("Total Spent", (none : Option Table))] := rfl
  refine ⟨h1, ?_⟩
  intro df hmem
  rw [h1] at hmem
  simp at hmem

/-- C1 (amended): iterating the generator yields exactly one pair per KPI,
in input order; the pair's first component is the KPI name (default
`Unnamed_KPI`) and its second is `some df` on success and `None` when SQL
generation or execution raised — the exception is caught and the generator
continues with every subsequent KPI. -/
theorem get_data_for_all_kpis_pairs_spec (cm : String → Except String String)
    (run : String → Except String Table) (api : SchemaAPI) (kpis : List KPIRec) :
    (get_data_for_all_kpis cm run api kpis).length = kpis.length ∧
    ∀ i, i < kpis.length →
      (get_data_for_all_kpis cm run api kpis).getD i ("", none)
        = ((kpis.getD i ⟨none, none, []⟩).name.getD "Unnamed_KPI",
           (get_data_for_kpi cm run api (kpis.getD i ⟨none, none, []⟩)).toOption) := by
  constructor
  · simp [get_data_for_all_kpis]
  · intro i hi
    have hx : kpis[i]? = some kpis[i] := List.getElem?_eq_getElem hi
    simp [get_data_for_all_kpis, List.getD, List.getElem?_map, hx]

/-- C1 witness: one failing KPI — the single yielded pair is the KPI name
with `None`. -/
theorem get_data_for_all_kpis_pairs_spec_witness :
    0 < ([kpiA] : List KPIRec).length ∧
    (get_data_for_all_kpis cmFail runFailSql api0 [kpiA]).getD 0 ("", none)
      = ("Total Spent", (none : Option Table)) := by
  refine ⟨by decide, ?_⟩
  have h := (get_data_for_all_kpis_pairs_spec cmFail runFailSql api0 [kpiA]).2 0 (by decide)
  rw [h]
  rfl

/-- C5: when the model response text is not valid JSON (the decode oracle
errors), neither model-dependent parsing site raises: KPI proposal's
`parse_kpi_json` returns `None` and the chart-suggestion step returns
`None` (the raw text is printed, a side effect outside this embedding). -/
theorem malformed_json_degrades_gracefully
    (parseJson : String → Except String Json) (cm : String → String)
    (text kpi_name kpi_desc insight_summary e1 e2 : String)
    (h1 : parseJson text = Except.error e1)
    (h2 : parseJson ((cm (chart_prompt kpi_name kpi_desc insight_summary)).trim)
            = Except.error e2) :
    parse_kpi_json parseJson text = none ∧
    suggest_chart_types parseJson cm kpi_name kpi_desc insight_summary = none := by
  constructor
  · simp [parse_kpi_json, h1]
  · simp [suggest_chart_types, h2]

/-- C5 witness: a decode failure yields `None` at both call sites. -/
theorem malformed_json_degrades_gracefully_witness :
    parse_kpi_json parseAlwaysErr "not json" = none ∧
    suggest_chart_types parseAlwaysErr cmText "k" "d" "i" = none :=
  malformed_json_degrades_gracefully parseAlwaysErr cmText "not json" "k" "d" "i"
    "Expecting value: line 1 column 1 (char 0)"
    "Expecting value: line 1 column 1 (char 0)" rfl rfl

/-- C8: a chart-suggestion response parsing to a single JSON object is
normalized to a one-element list; a response parsing to a JSON array is
returned as-is. -/
theorem suggest_chart_types_normalization
    (parseJson : String → Except String Json) (cm : String → String)
    (kpi_name kpi_desc insight_summary : String) :
    (∀ fields, parseJson ((cm (chart_prompt kpi_name kpi_desc insight_summary)).trim)
        = Except.ok (Json.obj fields) →
      suggest_chart_types parseJson cm kpi_name kpi_desc insight_summary
        = some [Json.obj fields]) ∧
    (∀ items, parseJson ((cm (chart_prompt kpi_name kpi_desc insight_summary)).trim)
        = Except.ok (Json.arr items) →
      suggest_chart_types parseJson cm kpi_name kpi_desc insight_summary
        = some items) := by
  constructor
  · intro fields h
    simp [suggest_chart_types, h]
  · intro items h
    simp [suggest_chart_types, h]

/-- C8 witness: a lone object response becomes a one-element list. -/
theorem suggest_chart_types_normalization_witness :
    suggest_chart_types parseAlwaysObj cmText "k" "d" "i"
      = some [Json.obj [("chart_type", Json.str "bar")]] :=
  (suggest_chart_types_normalization parseAlwaysObj cmText "k" "d" "i").1
    [("chart_type", Json.str "bar")] rfl

/-- C6 evidence: whenever the chart-suggestion call returns a non-empty
suggestion list, `create_visualization` proceeds to code generation, but
the result equals `generate_plotly_code` applied to the KPI name,
description, insight summary and data alone — the bound `first_suggestion`
(and every other suggestion) is not an input of the code-generation step,
contradicting the source's own comment that the first suggestion is used
to request code. -/
theorem create_visualization_ignores_first_suggestion
    (parseJson : String → Except String Json) (cmSuggest cmCode : String → String)
    (runCode : String → Table → Option Fig)
    (kpi_name kpi_desc insight_summary : String) (kpi_data : Table)
    (l : List Json)
    (hs : suggest_chart_types parseJson cmSuggest kpi_name kpi_desc insight_summary
            = some l)
    (hne : l ≠ []) :
    create_visualization parseJson cmSuggest cmCode runCode
        kpi_name kpi_desc insight_summary kpi_data
      = generate_plotly_code cmCode runCode kpi_name kpi_desc insight_summary
          kpi_data 10 := by
  have hne' : l.isEmpty = false := by
    cases l with
    | nil => exact absurd rfl hne
    | cons a as => rfl
  simp [create_visualization, hs, hne']

/-- C6 witness: two suggestions returned, and the figure result coincides
with a call of `generate_plotly_code` that receives no suggestion. -/
theorem create_visualization_ignores_first_suggestion_witness :
    create_visualization parseAlwaysArr cmText cmText runCodeOk "k" "d" "i" tNum
      = generate_plotly_code cmText runCodeOk "k" "d" "i" tNum 10 :=
  create_visualization_ignores_first_suggestion parseAlwaysArr cmText cmText
    runCodeOk "k" "d" "i" tNum
    [Json.obj [("chart_type", Json.str "bar")], Json.obj [("chart_type", Json.str "line")]]
    rfl (by simp)

theorem sum_of_all_eq (l : List ℚ) (v : ℚ) (h : ∀ x ∈ l, x = v) :
    l.sum = (l.length : ℚ) * v := by
  induction l with
  | nil => simp
  | cons a as ih =>
    have ha := h a (List.mem_cons_self a as)
    have h' : ∀ x ∈ as, x = v := fun x hx => h x (List.mem_cons_of_mem a hx)
    rw [List.sum_cons, ih h', ha, List.length_cons]
    push_cast
    ring

theorem keptVar_eq_zero_of_all_eq (kept : List (ℕ × ℚ))
    (hne : kept ≠ [])
    (hdeg : ∀ p ∈ kept, ∀ q ∈ kept, p.2 = q.2) :
    keptVar kept = 0 := by
  have hhead : kept.headD (0, 0) ∈ kept := by
    cases kept with
    | nil => exact absurd rfl hne
    | cons a as => exact List.mem_cons_self a as
  have hall : ∀ x ∈ kept.map Prod.snd, x = (kept.headD (0, 0)).2 := by
    intro x hx
    obtain ⟨p, hp, rfl⟩ := List.mem_map.1 hx
    exact hdeg p hp (kept.headD (0, 0)) hhead
  have hlen : (0 : ℚ) < (kept.length : ℚ) := by
    have : 0 < kept.length := List.length_pos.2 hne
    exact_mod_cast this
  have hmu : keptMean kept = (kept.headD (0, 0)).2 := by
    unfold keptMean
    rw [sum_of_all_eq _ _ hall, List.length_map]
    field_simp
  have hzero : ∀ x ∈ kept.map (fun p => (p.2 - keptMean kept) * (p.2 - keptMean kept)), x = 0 := by
    intro x hx
    obtain ⟨p, hp, rfl⟩ := List.mem_map.1 hx
    rw [hmu, hdeg p hp (kept.headD (0, 0)) hhead]
    ring
  unfold keptVar
  rw [sum_of_all_eq _ _ hzero]
  simp

/-- C7: anomaly detection on a numeric column with fewer than two distinct
non-missing values (zero variance) does not raise despite the z-score
division by zero (the `NaN` z-scores compare false against the threshold)
and reports the defined degenerate result: an empty anomaly list for that
column. -/
theorem anomaly_detection_zero_variance (data : Table) (z_thresh : ℚ)
    (col : Column) (hc : col ∈ data.cols) (hn : col.dtype = DType.numeric)
    (hdeg : ∀ p ∈ keptOfCells col.cells, ∀ q ∈ keptOfCells col.cells, p.2 = q.2) :
    (col.name, ([] : List ℕ)) ∈ anomaly_detection data z_thresh := by
  have hmemN : col ∈ data.numericCols := by
    simp [Table.numericCols, List.mem_filter, hc, hn]
  have hz : anomaliesForCol z_thresh col.cells = [] := by
    unfold anomaliesForCol
    by_cases hk : (keptOfCells col.cells).isEmpty
    · simp [hk]
    · have hne : keptOfCells col.cells ≠ [] := by
        cases h : keptOfCells col.cells with
        | nil => rw [h] at hk; exact absurd rfl hk
        | cons a as => simp
      have hv := keptVar_eq_zero_of_all_eq (keptOfCells col.cells) hne hdeg
      simp only [hk, Bool.false_eq_true, if_false]
      refine List.filterMap_eq_nil_iff.mpr ?_
      intro p hp
      simp [hv]
  have hmem : (col.name, anomaliesForCol z_thresh col.cells) ∈ anomaly_detection data z_thresh := by
    unfold anomaly_detection
    exact List.mem_map.2 ⟨col, hmemN, rfl⟩
  rw [hz] at hmem
  exact hmem

/-- C7 witness: a numeric column whose only non-missing value is `5`
(twice) yields the empty anomaly list. -/
theorem anomaly_detection_zero_variance_witness :
    ("x", ([] : List ℕ)) ∈ anomaly_detection ⟨[colConst]⟩ 3 :=
  anomaly_detection_zero_variance ⟨[colConst]⟩ 3 colConst (by decide) rfl (by decide)

/-- C3 counterexample: in the orchestrated pipeline a KPI whose retrieval
returns a zero-row table is skipped by the main loop before insight
generation and visualization, so the results mapping stays empty and the
dashboard renders no card — and hence no placeholder text — for it,
contrary to the claim's parenthetical. -/
theorem empty_table_kpi_has_no_dashboard_card :
    build_dashboard_layout
        (kpi_insights_figures llmOkSummary parseAlwaysObj cmText cmText runCodeOk
          cmOkSql runEmptySql api0 none [kpiA]) = [] ∧
    main_loop_step llmOkSummary parseAlwaysObj cmText cmText runCodeOk none
        [kpiA] "Total Spent" (some emptyResultTable) = none := by
  constructor
  · rfl
  · rfl

/-- C3 (amended): on a zero-row result table `generate_insights_for_kpi`
short-circuits to a bundle holding only the no-data summary text (no
`descriptive_stats`, `correlation_matrix` or `anomalies` entry exists and
no numeric analysis contributes to the result), and the orchestrator's loop
body skips such a KPI before invoking insight generation or visualization,
recording no dashboard entry (so the dashboard shows nothing for it rather
than a placeholder). -/
theorem empty_table_short_circuit (llm : String → Except String String)
    (parseJson : String → Except String Json) (cmSuggest cmCode : String → String)
    (runCode : String → Table → Option Fig) (datetime_col : Option String)
    (kpi : KPIRec) (kpis : List KPIRec) (kpi_name : String) (data : Table)
    (hzero : ∀ c ∈ data.cols, c.cells = []) :
    generate_insights_for_kpi llm datetime_col kpi data
        = [("summary", InsightVal.text
            ("No data available to generate insights for KPI '"
              ++ kpi.name.getD "Unknown" ++ "'."))] ∧
    main_loop_step llm parseJson cmSuggest cmCode runCode datetime_col kpis
        kpi_name (some data) = none := by
  have hempty : data.isEmpty = true := by
    simp only [Table.isEmpty, Bool.or_eq_true, List.all_eq_true]
    right
    intro c hc
    simp [hzero c hc]
  constructor
  · simp [generate_insights_for_kpi, hempty]
  · simp [main_loop_step, hempty]

/-- C3 witness: the zero-row result table short-circuits and is skipped. -/
theorem empty_table_short_circuit_witness :
    (∀ c ∈ emptyResultTable.cols, c.cells = []) ∧
    generate_insights_for_kpi llmOkSummary none kpiA emptyResultTable
        = [("summary", InsightVal.text
            "No data available to generate insights for KPI 'Total Spent'.")] ∧
    main_loop_step llmOkSummary parseAlwaysObj cmText cmText runCodeOk none
        [kpiA] "Total Spent" (some emptyResultTable) = none := by
  have hzero : ∀ c ∈ emptyResultTable.cols, c.cells = [] := by decide
  have h := empty_table_short_circuit llmOkSummary parseAlwaysObj cmText cmText
    runCodeOk none kpiA [kpiA] "Total Spent" emptyResultTable hzero
  exact ⟨hzero, h.1, h.2⟩

/-- C9: for every non-empty KPI result table, on the non-exception path
(the model summary call succeeds) the insight bundle's `clusters` entry is
`None`: `detect_clusters` is not part of the per-KPI pipeline (its call is
commented out in the source), whatever it would return. -/
theorem insights_clusters_always_none (llm : String → Except String String)
    (datetime_col : Option String) (kpi : KPIRec) (data : Table) (s : String)
    (hne : data.isEmpty = false)
    (hs : generate_textual_insight llm (kpi.name.getD "Unknown KPI")
            (kpi.desc.getD "") (descriptive_stats data)
            (trendsFor datetime_col data) (correlation_matrix data)
            (categorical_summary data) = Except.ok s) :
    (generate_insights_for_kpi llm datetime_col kpi data).lookup "clusters"
      = some (InsightVal.clustersV none) := by
  simp only [generate_insights_for_kpi, hne, Bool.false_eq_true, if_false, hs]
  rfl

/-- C9 witness: a table with enough complete numeric rows for three
clusters (so `detect_clusters` would return a grouping) still gets
`clusters = None` in its bundle. -/
theorem insights_clusters_always_none_witness :
    detect_clusters kmeans0 tNum 3 ≠ none ∧
    (generate_insights_for_kpi llmOkSummary none kpiA tNum).lookup "clusters"
      = some (InsightVal.clustersV none) := by
  constructor
  · decide
  · exact insights_clusters_always_none llmOkSummary none kpiA tNum
      ("summary text".trim) rfl (by rfl)

theorem insertByKey_length (p : ℚ × ℚ) (l : List (ℚ × ℚ)) :
    (insertByKey p l).length = l.length + 1 := by
  induction l with
  | nil => rfl
  | cons q qs ih =>
    simp only [insertByKey]
    split
    · simp
    · simp [ih]

theorem sortByKey_length (l : List (ℚ × ℚ)) :
    (sortByKey l).length = l.length := by
  induction l with
  | nil => rfl
  | cons p ps ih =>
    simp only [sortByKey]
    rw [insertByKey_length, ih, List.length_cons]

theorem rollingMean_length (w : ℕ) (ys : List ℚ) (hw : w ≠ 0) :
    (rollingMean w ys).length = ys.length + 1 - w := by
  simp [rollingMean, hw]

theorem trendOfSlope_spec (s : ℚ) :
    (trendOfSlope s = "stable" ↔ s = 0) ∧
    (trendOfSlope s = "increasing" ↔ 0 < s) ∧
    (trendOfSlope s = "decreasing" ↔ s < 0) := by
  unfold trendOfSlope
  rcases lt_trichotomy s 0 with h | h | h
  · rw [if_neg (by linarith), if_pos h]
    exact ⟨⟨fun hx => absurd hx (by decide), fun hx => absurd hx h.ne⟩,
           ⟨fun hx => absurd hx (by decide), fun hx => absurd h (by linarith)⟩,
           ⟨fun _ => h, fun _ => rfl⟩⟩
  · rw [if_neg (by linarith), if_neg (by linarith)]
    exact ⟨⟨fun _ => h, fun _ => rfl⟩,
           ⟨fun hx => absurd hx (by decide), fun hx => absurd hx (by linarith)⟩,
           ⟨fun hx => absurd hx (by decide), fun hx => absurd hx (by linarith)⟩⟩
  · rw [if_pos h]
    exact ⟨⟨fun hx => absurd hx (by decide), fun hx => absurd h (by linarith)⟩,
           ⟨fun _ => h, fun _ => rfl⟩,
           ⟨fun hx => absurd hx (by decide), fun hx => absurd hx (by linarith)⟩⟩

/-- C4: with a configured, present time column and a present target field,
trend detection returns `None` whenever fewer than `window + 1` rows remain
after dropping missing values; otherwise it returns the least-squares slope
fitted to the rolling mean of the time-sorted values, classified as
`stable` exactly when that slope is zero, `increasing` exactly when it is
positive, and `decreasing` exactly when it is negative. -/
theorem detect_trends_spec (data : Table) (dc field : String) (window : ℕ)
    (hne : dc ≠ "") (h1 : data.hasCol dc = true) (h2 : data.hasCol field = true)
    (hw : 1 ≤ window) :
    ((dropnaPairs data dc field).length < window + 1 →
       detect_trends (some dc) data field window = none) ∧
    (window + 1 ≤ (dropnaPairs data dc field).length →
       detect_trends (some dc) data field window
         = some { field := field,
                  trend := trendOfSlope (lsSlope (rollingMean window
                    ((sortByKey (dropnaPairs data dc field)).map Prod.snd))),
                  slope := lsSlope (rollingMean window
                    ((sortByKey (dropnaPairs data dc field)).map Prod.snd)) }) ∧
    (∀ r, detect_trends (some dc) data field window = some r →
       ((r.trend = "stable" ↔ r.slope = 0) ∧
        (r.trend = "increasing" ↔ 0 < r.slope) ∧
        (r.trend = "decreasing" ↔ r.slope < 0))) := by
  have hcond : ¬ (¬ (data.hasCol dc = true) ∨ ¬ (data.hasCol field = true)) := by
    simp [h1, h2]
  have hts : (sortByKey (dropnaPairs data dc field)).length
      = (dropnaPairs data dc field).length := sortByKey_length _
  have hred : detect_trends (some dc) data field window
      = (if (sortByKey (dropnaPairs data dc field)).length < window + 1 then none
         else if (rollingMean window
             ((sortByKey (dropnaPairs data dc field)).map Prod.snd)).length < 2 then none
         else some { field := field,
                     trend := trendOfSlope (lsSlope (rollingMean window
                       ((sortByKey (dropnaPairs data dc field)).map Prod.snd))),
                     slope := lsSlope (rollingMean window
                       ((sortByKey (dropnaPairs data dc field)).map Prod.snd)) }) := by
    simp only [detect_trends]
    rw [if_neg hne, if_neg hcond]
  refine ⟨?_, ?_, ?_⟩
  · intro hlt
    rw [hred, if_pos (by rw [hts]; exact hlt)]
  · intro hge
    have hrm : (rollingMean window
        ((sortByKey (dropnaPairs data dc field)).map Prod.snd)).length
        = (dropnaPairs data dc field).length + 1 - window := by
      rw [rollingMean_length window _ (by omega), List.length_map, hts]
    rw [hred, if_neg (by rw [hts]; omega), if_neg (by rw [hrm]; omega)]
  · intro r hr
    rw [hred] at hr
    by_cases hb1 : (sortByKey (dropnaPairs data dc field)).length < window + 1
    · rw [if_pos hb1] at hr
      exact absurd hr (by simp)
    · rw [if_neg hb1] at hr
      by_cases hb2 : (rollingMean window
          ((sortByKey (dropnaPairs data dc field)).map Prod.snd)).length < 2
      · rw [if_pos hb2] at hr
        exact absurd hr (by simp)
      · rw [if_neg hb2] at hr
        have hr' := Option.some.inj hr
        rw [← hr']
        exact trendOfSlope_spec _

/-- C4 witness: five complete rows, window 3 — the fitted slope of the
rolling means `[2, 3, 4]` is `1`, classified `increasing`. -/
theorem detect_trends_spec_witness :
    3 + 1 ≤ (dropnaPairs tTrend "date" "sales").length ∧
    detect_trends (some "date") tTrend "sales" 3
      = some { field := "sales", trend := "increasing", slope := 1 } := by
  refine ⟨by decide, ?_⟩
  have h := (detect_trends_spec tTrend "date" "sales" 3 (by decide) (by decide)
    (by decide) (by decide)).2.1 (by decide)
  rw [h]
  have hlist : (sortByKey (dropnaPairs tTrend "date" "sales")).map Prod.snd
      = [1, 2, 3, 4, 5] := by decide
  rw [hlist]
  have hr3 : List.range 3 = [0, 1, 2] := by decide
  have hroll : rollingMean 3 [1, 2, 3, 4, 5] = [2, 3, 4] := by
    norm_num [rollingMean, hr3]
  rw [hroll]
  have hslope : lsSlope [2, 3, 4] = 1 := by
    norm_num [lsSlope, hr3]
  rw [hslope]
  rfl

end Pipeline
